import Mathlib

/-!
Shallow embedding of the `gitflow` Ansible module
(`source_control/gitflow.py`): a declarative front-end that drives the
external `git flow` tool idempotently.  Python string primitives that the
module relies on (`str.format` with positional `{i}` holes, `str.strip`,
`str.replace`, `str.splitlines`, `str.startswith`, `str(None)`) are embedded
first, then the module's own functions `_get_cmd`, `_list`,
`_exit_if_unchanged`, `_gitflow_version`, `_gitflow_init`,
`_gitflow_branch` and `main`.
-/

namespace Gitflow

/-- Python `str.format` with single-digit positional holes `{i}`, on the
character list of the template.  Every template in the module uses only
such holes, so this captures Python's behaviour on them exactly:
each `{i}` is replaced by argument `i` (missing arguments never occur in
the module); every other character is copied verbatim. -/
def pyFormatL (args : List String) : List Char → List Char
  | '{' :: d :: '}' :: rest => (args.getD (d.toNat - 48) "").data ++ pyFormatL args rest
  | c :: rest => c :: pyFormatL args rest
  | [] => []

/-- Python `tpl.format(*args)` for the module's templates. -/
def pyFormat (tpl : String) (args : List String) : String :=
  String.mk (pyFormatL args tpl.data)

/-- Python `str(x)` for an optional string: `str(None) = "None"`.
The module passes possibly-`None` parameters straight into `.format`. -/
def pyStr : Option String → String
  | some s => s
  | none => "None"

/-- Python whitespace as used by `str.strip()`. -/
def isPySpace (c : Char) : Bool :=
  c = ' ' || c = '\t' || c = '\n' || c = '\r' || c = '\x0b' || c = '\x0c'

/-- Python `str.strip()` on a character list. -/
def pyStripL (l : List Char) : List Char :=
  ((l.dropWhile isPySpace).reverse.dropWhile isPySpace).reverse

/-- Python `str.strip()`. -/
def pyStrip (s : String) : String :=
  String.mk (pyStripL s.data)

/-- Python `x.replace('* ', '')`: every non-overlapping occurrence of the
two-character pattern `'* '` is removed, scanning left to right. -/
def replaceStarL : List Char → List Char
  | '*' :: ' ' :: rest => replaceStarL rest
  | c :: rest => c :: replaceStarL rest
  | [] => []

/-- Python `x.replace('* ', '').strip()` as applied by `_list` to each
line of the tool's output. -/
def lineName (s : String) : String :=
  String.mk (pyStripL (replaceStarL s.data))

/-- Python `x.startswith('* ')`. -/
def startsWithStar (s : String) : Bool :=
  match s.data with
  | '*' :: ' ' :: _ => true
  | _ => false

/-- Python `str.splitlines()` on character lists, for the line boundaries
`\n`, `\r\n` and `\r` (the ones `git flow` output can contain).  A trailing
boundary does not produce a final empty line; the empty string yields no
lines. -/
def splitlinesL (acc : List Char) : List Char → List (List Char)
  | '\r' :: '\n' :: rest => acc.reverse :: splitlinesL [] rest
  | '\n' :: rest => acc.reverse :: splitlinesL [] rest
  | '\r' :: rest => acc.reverse :: splitlinesL [] rest
  | c :: rest => splitlinesL (c :: acc) rest
  | [] => if acc.isEmpty then [] else [acc.reverse]

/-- Python `out.splitlines()`. -/
def splitlines (s : String) : List String :=
  (splitlinesL [] s.data).map String.mk

/-- Python's `needle in hay` for strings: substring containment. -/
def pySubstr (needle hay : String) : Bool :=
  hay.data.tails.any needle.data.isPrefixOf

/-- Result of one external process invocation:
`rc, out, err = module.run_command(cmd, cwd=...)`. -/
structure RunResult where
  rc : Int
  out : String
  err : String
  deriving DecidableEq, Repr

/-- The process-execution collaborator: command text and optional working
directory to exit code / stdout / stderr.  `module.run_command` is external
to the module, so executions are modelled as an arbitrary function of a
run. -/
def Runner : Type := String → Option String → RunResult

/-- The dict `_list` returns: key `'list'` holds every branch of the
command's type, key `'current'` the checked-out ones. -/
structure Inventory where
  list : List String
  current : List String
  deriving DecidableEq, Repr

/-- The terminal report of one module run: each constructor is one
`module.exit_json(...)` / `module.fail_json(...)` call site (with the
keyword arguments passed there), plus `validationFail` for the
`AnsibleModule` choices check and `noExit` for falling off `main`. -/
inductive ModuleResult where
  /-- `module.fail_json(msg=err, command=cmd)` -/
  | failJson (msg : String) (command : String)
  /-- `module.exit_json(changed=False, command=cmd, version=out.strip())` -/
  | versionJson (changed : Bool) (command : String) (version : String)
  /-- `module.exit_json(changed=…, msg=err, command=cmd)` in `_gitflow_init` -/
  | initJson (changed : Bool) (msg : String) (command : String)
  /-- `module.exit_json(changed=False, command=cmd)` in `_exit_if_unchanged` -/
  | skipJson (changed : Bool) (command : String)
  /-- `module.exit_json(changed=False, branches=branches)` for action `list` -/
  | branchesJson (changed : Bool) (branches : Inventory)
  /-- `module.exit_json(changed=True, msg=err, command=cmd)` after a
  mutating command -/
  | doneJson (changed : Bool) (msg : String) (command : String)
  /-- the host framework rejects the parameters before `main`'s body runs -/
  | validationFail (param : String)
  /-- `main` returns without calling any exit function -/
  | noExit
  deriving DecidableEq, Repr

/-- `_get_cmd(git, command, action, name, base, remote)`: selects a format
template and fills it with `(git, command, action, name, base, remote)`.
The first guard compares the tuple `(cmd, action)` — whose first component
is the template string itself — against `('hotfix', 'start')`, exactly as
the source does. -/
def get_cmd (git command action name base remote : String) : String :=
  let cmd := "{0} flow {1} {2} {3}"
  let cmd :=
    if (cmd, action) = ("hotfix", "start") then
      "{0} flow {1} {2} {3}"
    else if action = "pull" then
      "{0} flow {1} {4} {2}"
    else cmd
  pyFormat cmd [git, command, action, name, base, remote]

/-- The command `_list` runs: `'{0} flow {1} list'.format(git, command)`. -/
def list_cmd (git command : String) : String :=
  pyFormat "{0} flow {1} list" [git, command]

/-- The parsing part of `_list`: stdout to the branches dict.
`lst = out.splitlines()`; `current` keeps the lines starting with `'* '`;
both lists then map `x.replace('* ', '').strip()` over their lines. -/
def list_parse (out : String) : Inventory :=
  let lst := splitlines out
  let current := lst.filter startsWithStar
  ⟨lst.map lineName, current.map lineName⟩

/-- The condition under which `_exit_if_unchanged` calls
`module.exit_json(changed=False, command=cmd)`.  Python's `and` binds
tighter than `or`, and a `None` name is never `in` a list of strings
(nor equal to any of the compared action strings). -/
def exit_if_unchanged_cond (branches : Inventory) (action name : Option String) : Bool :=
  (action = some "start" && (name.elim false branches.list.contains))
  || (action = some "finish" && !(name.elim false branches.list.contains))
  || (action = some "checkout" && (name.elim false branches.current.contains))

/-- `_gitflow_version(module, git)`: runs `'{0} flow version'` with no
working directory; non-zero exit fails with the stderr and the command,
otherwise `changed=False` with the stripped stdout.  The second component
lists the commands spawned, in order. -/
def gitflow_version (run : Runner) (git : String) : ModuleResult × List String :=
  let cmd := pyFormat "{0} flow version" [git]
  let r := run cmd none
  if r.rc ≠ 0 then (.failJson r.err cmd, [cmd])
  else (.versionJson false cmd (pyStrip r.out), [cmd])

/-- `_gitflow_init(module, git, path)`: runs `'{0} flow init -d'` in
`path`; non-zero exit fails; else `changed=False` iff stderr contains
`'Already initialized'`. -/
def gitflow_init (run : Runner) (git : String) (path : Option String) :
    ModuleResult × List String :=
  let cmd := pyFormat "{0} flow init -d" [git]
  let r := run cmd path
  if r.rc ≠ 0 then (.failJson r.err cmd, [cmd])
  else if pySubstr "Already initialized" r.err then (.initJson false r.err cmd, [cmd])
  else (.initJson true r.err cmd, [cmd])

/-- `_gitflow_branch(module, git, command, path, action, name, base,
remote)`: builds the command, reads the inventory (`_list` fails on
non-zero exit), exits unchanged when `_exit_if_unchanged`'s condition
holds, returns the branches for action `list`, and otherwise runs the
built command, failing on non-zero exit. -/
def gitflow_branch (run : Runner) (git command : String) (path : Option String)
    (action name : Option String) (base remote : String) :
    ModuleResult × List String :=
  let cmd := get_cmd git command (pyStr action) (pyStr name) base remote
  let lcmd := list_cmd git command
  let r := run lcmd path
  if r.rc ≠ 0 then (.failJson r.err lcmd, [lcmd])
  else
    let branches := list_parse r.out
    if exit_if_unchanged_cond branches action name then
      (.skipJson false cmd, [lcmd])
    else if action = some "list" then
      (.branchesJson false branches, [lcmd])
    else
      let r2 := run cmd path
      if r2.rc ≠ 0 then (.failJson r2.err cmd, [lcmd, cmd])
      else (.doneJson true r2.err cmd, [lcmd, cmd])

/-- The `choices` list of the `command` parameter in `main`'s
`argument_spec`. -/
def command_choices : List String :=
  ["init", "feature", "release", "hotfix", "version"]

/-- The `choices` list of the `action` parameter in `main`'s
`argument_spec`. -/
def action_choices : List String :=
  ["start", "finish", "publish", "list", "rebase", "checkout", "pull"]

/-- The action choices promised by the module's `DOCUMENTATION` string
(options → action → choices). -/
def documented_action_choices : List String :=
  ["start", "finish", "list", "publish", "track", "rebase", "checkout", "pull"]

/-- The parameters `main` reads from `module.params` (defaults already
applied by the framework: `executable` defaults to `'git'`, `remote` and
`base` to `''`). -/
structure Params where
  path : Option String
  command : String
  action : Option String
  name : Option String
  executable : String
  remote : String
  base : String
  deriving DecidableEq, Repr

/-- Modelled from the spec: the host framework ("an abstract task runner
that supplies validated inputs") type/choice-validates the parameters
against `main`'s `argument_spec` before `main`'s body runs — `command` is
required and must be among its `choices`, and `action`, when supplied,
must be among its `choices`.  `AnsibleModule` itself is outside this
repository. -/
def params_valid (p : Params) : Bool :=
  command_choices.contains p.command
  && (p.action.elim true action_choices.contains)

/-- `main()`: parameter validation by the framework, then dispatch on
`command` — `version`, `init`, or a branch command (the `'support'` member
of the dispatch list is unreachable because it is not a declared choice).
Falling off the end of `main` exits nothing. -/
def gitflow_main (run : Runner) (p : Params) : ModuleResult × List String :=
  if !params_valid p then (.validationFail "choices", [])
  else if p.command = "version" then gitflow_version run p.executable
  else if p.command = "init" then gitflow_init run p.executable p.path
  else if ["feature", "release", "hotfix", "support"].contains p.command then
    gitflow_branch run p.executable p.command p.path p.action p.name p.base p.remote
  else (.noExit, [])

/-! ### Characterizations of the formatted templates -/

lemma pyFormat_branch_tpl (g c a n b r : String) :
    pyFormat "{0} flow {1} {2} {3}" [g, c, a, n, b, r]
      = g ++ " flow " ++ c ++ " " ++ a ++ " " ++ n := by
  apply String.ext
  simp [pyFormat, pyFormatL]

lemma pyFormat_pull_tpl (g c a n b r : String) :
    pyFormat "{0} flow {1} {4} {2}" [g, c, a, n, b, r]
      = g ++ " flow " ++ c ++ " " ++ b ++ " " ++ a := by
  apply String.ext
  simp [pyFormat, pyFormatL]

lemma pyFormat_version_tpl (g : String) :
    pyFormat "{0} flow version" [g] = g ++ " flow version" := by
  apply String.ext
  simp [pyFormat, pyFormatL]

lemma pyFormat_init_tpl (g : String) :
    pyFormat "{0} flow init -d" [g] = g ++ " flow init -d" := by
  apply String.ext
  simp [pyFormat, pyFormatL]

lemma pyFormat_list_tpl (g c : String) :
    pyFormat "{0} flow {1} list" [g, c] = g ++ " flow " ++ c ++ " list" := by
  apply String.ext
  simp [pyFormat, pyFormatL]

/-- The first guard of `_get_cmd` compares the template string itself with
`'hotfix'`; since they differ, the guard never fires and `get_cmd` reduces
to the pull template for action `pull` and the default template
otherwise. -/
lemma get_cmd_eq (g c a n b r : String) :
    get_cmd g c a n b r =
      if a = "pull" then g ++ " flow " ++ c ++ " " ++ b ++ " " ++ a
      else g ++ " flow " ++ c ++ " " ++ a ++ " " ++ n := by
  by_cases hp : a = "pull"
  · subst hp
    simp [get_cmd, pyFormat_pull_tpl]
  · simp [get_cmd, hp, pyFormat_branch_tpl]

/-! ### The idempotency gate's condition, per action -/

lemma cond_start (inv : Inventory) (name : String) :
    exit_if_unchanged_cond inv (some "start") (some name) = inv.list.contains name := by
  simp [exit_if_unchanged_cond]

lemma cond_finish (inv : Inventory) (name : String) :
    exit_if_unchanged_cond inv (some "finish") (some name) = !(inv.list.contains name) := by
  simp [exit_if_unchanged_cond]

lemma cond_checkout (inv : Inventory) (name : String) :
    exit_if_unchanged_cond inv (some "checkout") (some name) = inv.current.contains name := by
  simp [exit_if_unchanged_cond]

lemma cond_other (inv : Inventory) (a : String) (name : Option String)
    (h1 : a ≠ "start") (h2 : a ≠ "finish") (h3 : a ≠ "checkout") :
    exit_if_unchanged_cond inv (some a) name = false := by
  simp [exit_if_unchanged_cond, h1, h2, h3]

/-- When the list command succeeds and the gate's condition holds,
`_gitflow_branch` exits unchanged right after the read-only list call. -/
lemma gitflow_branch_skip (run : Runner) (git command : String) (path : Option String)
    (action name : Option String) (base remote : String)
    (h0 : (run (list_cmd git command) path).rc = 0)
    (hc : exit_if_unchanged_cond (list_parse (run (list_cmd git command) path).out) action name
            = true) :
    gitflow_branch run git command path action name base remote
      = (.skipJson false (get_cmd git command (pyStr action) (pyStr name) base remote),
         [list_cmd git command]) := by
  simp [gitflow_branch, h0, hc]

/-- Whether a character list contains an occurrence of the two-character
pattern `'* '` anywhere (leading or interior). -/
def hasStarPair : List Char → Bool
  | '*' :: ' ' :: _ => true
  | _ :: rest => hasStarPair rest
  | [] => false

/-- A character other than at a `'* '` occurrence is copied verbatim by
`x.replace('* ', '')`. -/
lemma replaceStarL_cons (c : Char) (l : List Char) (h : ¬(c = '*' ∧ l.head? = some ' ')) :
    replaceStarL (c :: l) = c :: replaceStarL l := by
  by_cases hc : c = '*'
  · subst hc
    cases l with
    | nil => rfl
    | cons c2 t =>
      by_cases h2 : c2 = ' '
      · subst h2
        exact absurd ⟨rfl, rfl⟩ h
      · simp [replaceStarL, h2]
  · cases l with
    | nil => simp [replaceStarL, hc]
    | cons c2 t =>
      by_cases h2 : c2 = ' '
      · subst h2
        simp [replaceStarL, hc]
      · simp [replaceStarL, hc, h2]

/-! ### Concrete runners used to exercise the module end to end -/

/-- A runner whose every process exits 0 with empty stdout/stderr. -/
def runOk : Runner := fun _ _ => ⟨0, "", ""⟩

/-- A runner whose every process exits 1 with stderr `"boom"`. -/
def runBoom : Runner := fun _ _ => ⟨1, "", "boom"⟩

/-- A runner whose every process exits 0 and prints the single branch
line `"  foo"`. -/
def runListFoo : Runner := fun _ _ => ⟨0, "  foo", ""⟩

/-- A runner whose list command succeeds with empty output and whose other
processes exit 1 with stderr `"mutate failed"`. -/
def runMutateBoom : Runner := fun c _ =>
  if c = "git flow feature list" then ⟨0, "", ""⟩ else ⟨1, "", "mutate failed"⟩

/-! ### Claims -/

/-- Claim C1, settled against the code: `_get_cmd`'s pull template is
`'{0} flow {1} {4} {2}'`, whose holes are (tool, command, base, action) —
not (remote, name) as the claim (and the source's own comment
`git flow feature pull {remote} {name}`) state.  At the claim's own input
the built command is `"git flow feature  pull"` (the empty base leaves a
double space), not `"git flow feature pull origin foo"`. -/
theorem C1_pull_command_misformatted :
    get_cmd "git" "feature" "pull" "foo" "" "origin" = "git flow feature  pull"
    ∧ get_cmd "git" "feature" "pull" "foo" "" "origin" ≠ "git flow feature pull origin foo" := by
  decide

/-- Claim C2: for every tool, name, base and remote, `_get_cmd` on command
`hotfix`, action `start` returns exactly the default-template output
`<tool> flow hotfix start <name>` — the base is never appended — because
the guard of the hotfix special case compares the tuple
`(template-string, action)` with `('hotfix', 'start')` and the template
string is never `'hotfix'`. -/
theorem C2_hotfix_start_uses_default_template (git name base remote : String) :
    get_cmd git "hotfix" "start" name base remote
        = pyFormat "{0} flow {1} {2} {3}" [git, "hotfix", "start", name, base, remote]
    ∧ get_cmd git "hotfix" "start" name base remote = git ++ " flow hotfix start " ++ name
    ∧ ∀ a : String,
        ((("{0} flow {1} {2} {3}", a) : String × String) == ("hotfix", "start")) = false := by
  refine ⟨?_, ?_, ?_⟩
  · rw [pyFormat_branch_tpl, get_cmd_eq]
    simp only [if_neg (by decide : ¬ ("start" : String) = "pull")]
  · rw [get_cmd_eq]
    simp only [if_neg (by decide : ¬ ("start" : String) = "pull")]
    apply String.ext
    simp
  · intro a
    rfl

/-- Claim C5: parsing the list output
`"  feature/a\n* feature/b\n  feature/c"` yields the inventory with
`list = ["feature/a", "feature/b", "feature/c"]` and
`current = ["feature/b"]`. -/
theorem C5_list_output_parsed :
    list_parse "  feature/a\n* feature/b\n  feature/c"
      = ⟨["feature/a", "feature/b", "feature/c"], ["feature/b"]⟩ := by
  decide

/-- Claim C7, settled against the code: `'track'` is promised by the
module's `DOCUMENTATION` but missing from the `action` `choices` of
`main`'s `argument_spec`, so an invocation with `action='track'` fails the
framework's choice validation instead of passing it. -/
theorem C7_track_missing_from_choices :
    action_choices.contains "track" = false
    ∧ documented_action_choices.contains "track" = true
    ∧ params_valid ⟨some "/repo", "feature", some "track", some "x", "git", "", ""⟩ = false
    ∧ gitflow_main runOk ⟨some "/repo", "feature", some "track", some "x", "git", "", ""⟩
        = (.validationFail "choices", []) := by
  decide

/-- Claim C8, settled against the code: nothing validates `name`.  A
`feature`/`start` invocation without a name passes the parameter checks,
spawns the read-only list process and then the mutating process — whose
command text interpolates Python's `str(None)` — instead of surfacing a
validation failure before any process is spawned. -/
theorem C8_missing_name_not_validated :
    params_valid ⟨some "/repo", "feature", some "start", none, "git", "", ""⟩ = true
    ∧ gitflow_main runOk ⟨some "/repo", "feature", some "start", none, "git", "", ""⟩
        = (.doneJson true "" "git flow feature start None",
           ["git flow feature list", "git flow feature start None"]) := by
  decide

/-- Claim C3: for every inventory and name, the gate's condition holds for
`start` when the name is listed and for `finish` when it is not; and in
both cases `_gitflow_branch` reports `changed=False` having spawned only
the read-only list process — no mutating process. -/
theorem C3_start_finish_idempotent :
    (∀ (inv : Inventory) (name : String), inv.list.contains name = true →
        exit_if_unchanged_cond inv (some "start") (some name) = true)
    ∧ (∀ (inv : Inventory) (name : String), inv.list.contains name = false →
        exit_if_unchanged_cond inv (some "finish") (some name) = true)
    ∧ (∀ (run : Runner) (git command : String) (path : Option String) (name base remote : String),
        (run (list_cmd git command) path).rc = 0 →
        (list_parse (run (list_cmd git command) path).out).list.contains name = true →
        gitflow_branch run git command path (some "start") (some name) base remote
          = (.skipJson false (get_cmd git command "start" name base remote),
             [list_cmd git command]))
    ∧ (∀ (run : Runner) (git command : String) (path : Option String) (name base remote : String),
        (run (list_cmd git command) path).rc = 0 →
        (list_parse (run (list_cmd git command) path).out).list.contains name = false →
        gitflow_branch run git command path (some "finish") (some name) base remote
          = (.skipJson false (get_cmd git command "finish" name base remote),
             [list_cmd git command])) := by
  refine ⟨?_, ?_, ?_, ?_⟩
  · intro inv name h
    rw [cond_start]
    exact h
  · intro inv name h
    rw [cond_finish, h]
    rfl
  · intro run git command path name base remote h0 h1
    exact gitflow_branch_skip run git command path (some "start") (some name) base remote h0
      (by rw [cond_start]; exact h1)
  · intro run git command path name base remote h0 h1
    exact gitflow_branch_skip run git command path (some "finish") (some name) base remote h0
      (by rw [cond_finish, h1]; rfl)

/-- Closed instances of `C3_start_finish_idempotent`. -/
theorem C3_witness :
    exit_if_unchanged_cond ⟨["foo"], []⟩ (some "start") (some "foo") = true
    ∧ exit_if_unchanged_cond ⟨["bar"], []⟩ (some "finish") (some "foo") = true
    ∧ gitflow_branch runListFoo "git" "feature" (some "/repo") (some "start") (some "foo") "" ""
        = (.skipJson false "git flow feature start foo", ["git flow feature list"])
    ∧ gitflow_branch runOk "git" "feature" (some "/repo") (some "finish") (some "foo") "" ""
        = (.skipJson false "git flow feature finish foo", ["git flow feature list"]) :=
  ⟨C3_start_finish_idempotent.1 ⟨["foo"], []⟩ "foo" (by decide),
   C3_start_finish_idempotent.2.1 ⟨["bar"], []⟩ "foo" (by decide),
   C3_start_finish_idempotent.2.2.1 runListFoo "git" "feature" (some "/repo") "foo" "" ""
     (by decide) (by decide),
   C3_start_finish_idempotent.2.2.2 runOk "git" "feature" (some "/repo") "foo" "" ""
     (by decide) (by decide)⟩

/-- Claim C4: for every inventory and name, the gate's condition for
`checkout` is exactly membership of the name in `inventory.current`, and
for each of the actions `list`, `publish`, `track`, `rebase` and `pull`
the gate never skips, whatever the inventory and (possibly absent)
name. -/
theorem C4_checkout_skip_others_never :
    (∀ (inv : Inventory) (name : String),
        exit_if_unchanged_cond inv (some "checkout") (some name) = inv.current.contains name)
    ∧ (∀ (inv : Inventory) (name : Option String),
        exit_if_unchanged_cond inv (some "list") name = false)
    ∧ (∀ (inv : Inventory) (name : Option String),
        exit_if_unchanged_cond inv (some "publish") name = false)
    ∧ (∀ (inv : Inventory) (name : Option String),
        exit_if_unchanged_cond inv (some "track") name = false)
    ∧ (∀ (inv : Inventory) (name : Option String),
        exit_if_unchanged_cond inv (some "rebase") name = false)
    ∧ (∀ (inv : Inventory) (name : Option String),
        exit_if_unchanged_cond inv (some "pull") name = false) := by
  refine ⟨cond_checkout, ?_, ?_, ?_, ?_, ?_⟩ <;>
    · intro inv name
      exact cond_other inv _ name (by decide) (by decide) (by decide)

/-- Claim C6, counterexample: on the line `"a* b"` — whose only `'* '`
occurrence is interior, not a leading marker — the code records `"ab"`:
the interior `'* '` is removed by `x.replace('* ', '')`, not preserved as
the claim states. -/
theorem C6_counterexample :
    (list_parse "a* b").list = ["ab"]
    ∧ lineName "a* b" = "ab"
    ∧ ("ab" : String) ≠ "a* b" := by
  decide

/-- Claim C6 as amended: the recorded name is the line with every
non-overlapping occurrence of `'* '` — leading or interior — removed left
to right, then trimmed of surrounding whitespace: a leading marker is
removed exactly as claimed, every other character is copied verbatim, and
a line free of the pattern is only trimmed. -/
theorem C6_every_star_marker_removed :
    (∀ l : List Char, replaceStarL ('*' :: ' ' :: l) = replaceStarL l)
    ∧ (∀ (c : Char) (l : List Char), ¬(c = '*' ∧ l.head? = some ' ') →
        replaceStarL (c :: l) = c :: replaceStarL l)
    ∧ (∀ l : List Char, hasStarPair l = false → replaceStarL l = l)
    ∧ (∀ s : String, hasStarPair s.data = false → lineName s = pyStrip s) := by
  have hno : ∀ l : List Char, hasStarPair l = false → replaceStarL l = l := by
    intro l
    induction l with
    | nil => intro _; rfl
    | cons c rest ih =>
      intro h
      by_cases hc : c = '*'
      · subst hc
        cases rest with
        | nil => rfl
        | cons c2 t =>
          by_cases h2 : c2 = ' '
          · subst h2
            simp [hasStarPair] at h
          · rw [replaceStarL_cons _ _ (by simp [h2]), ih (by simpa [hasStarPair, h2] using h)]
      · cases rest with
        | nil => simp [replaceStarL, hc]
        | cons c2 t =>
          rw [replaceStarL_cons _ _ (by simp [hc]), ih (by simpa [hasStarPair, hc] using h)]
  refine ⟨fun l => rfl, replaceStarL_cons, hno, ?_⟩
  intro s h
  unfold lineName pyStrip
  rw [hno s.data h]

/-- Closed instances of `C6_every_star_marker_removed`, one per
conjunct. -/
theorem C6_witness :
    replaceStarL ['*', ' ', 'z'] = replaceStarL ['z']
    ∧ replaceStarL ['x', '*'] = 'x' :: replaceStarL ['*']
    ∧ replaceStarL ['x', '*'] = ['x', '*']
    ∧ lineName " xy " = "xy" :=
  ⟨C6_every_star_marker_removed.1 ['z'],
   C6_every_star_marker_removed.2.1 'x' ['*'] (by decide),
   C6_every_star_marker_removed.2.2.1 ['x', '*'] (by decide),
   by
    rw [C6_every_star_marker_removed.2.2.2 " xy " (by decide)]
    decide⟩

/-- Claim C9: whenever a spawned process exits non-zero — the version
command, the init command, the read-only list command, or the mutating
branch command — the module fails immediately, the failure message is the
process's raw stderr together with the exact command text attempted, and
nothing further is spawned (no retry, no local recovery). -/
theorem C9_nonzero_exit_is_fatal (run : Runner) (git command : String)
    (path : Option String) (action name : Option String) (base remote : String) :
    ((run (pyFormat "{0} flow version" [git]) none).rc ≠ 0 →
      gitflow_version run git
        = (.failJson (run (pyFormat "{0} flow version" [git]) none).err
             (pyFormat "{0} flow version" [git]),
           [pyFormat "{0} flow version" [git]]))
    ∧ ((run (pyFormat "{0} flow init -d" [git]) path).rc ≠ 0 →
      gitflow_init run git path
        = (.failJson (run (pyFormat "{0} flow init -d" [git]) path).err
             (pyFormat "{0} flow init -d" [git]),
           [pyFormat "{0} flow init -d" [git]]))
    ∧ ((run (list_cmd git command) path).rc ≠ 0 →
      gitflow_branch run git command path action name base remote
        = (.failJson (run (list_cmd git command) path).err (list_cmd git command),
           [list_cmd git command]))
    ∧ ((run (list_cmd git command) path).rc = 0 →
      exit_if_unchanged_cond (list_parse (run (list_cmd git command) path).out) action name
          = false →
      action ≠ some "list" →
      (run (get_cmd git command (pyStr action) (pyStr name) base remote) path).rc ≠ 0 →
      gitflow_branch run git command path action name base remote
        = (.failJson
             (run (get_cmd git command (pyStr action) (pyStr name) base remote) path).err
             (get_cmd git command (pyStr action) (pyStr name) base remote),
           [list_cmd git command,
            get_cmd git command (pyStr action) (pyStr name) base remote])) := by
  refine ⟨?_, ?_, ?_, ?_⟩
  · intro h
    simp [gitflow_version, h]
  · intro h
    simp [gitflow_init, h]
  · intro h
    simp [gitflow_branch, h]
  · intro h0 hg hl h2
    simp [gitflow_branch, h0, hg, hl, h2]

/-- Closed instances of `C9_nonzero_exit_is_fatal`, one per failing
process kind. -/
theorem C9_witness :
    gitflow_version runBoom "git" = (.failJson "boom" "git flow version", ["git flow version"])
    ∧ gitflow_init runBoom "git" (some "/repo")
        = (.failJson "boom" "git flow init -d", ["git flow init -d"])
    ∧ gitflow_branch runBoom "git" "feature" (some "/repo") (some "start") (some "foo") "" ""
        = (.failJson "boom" "git flow feature list", ["git flow feature list"])
    ∧ gitflow_branch runMutateBoom "git" "feature" (some "/repo") (some "start") (some "foo") "" ""
        = (.failJson "mutate failed" "git flow feature start foo",
           ["git flow feature list", "git flow feature start foo"]) :=
  ⟨(C9_nonzero_exit_is_fatal runBoom "git" "feature" (some "/repo") (some "start") (some "foo")
      "" "").1 (by decide),
   (C9_nonzero_exit_is_fatal runBoom "git" "feature" (some "/repo") (some "start") (some "foo")
      "" "").2.1 (by decide),
   (C9_nonzero_exit_is_fatal runBoom "git" "feature" (some "/repo") (some "start") (some "foo")
      "" "").2.2.1 (by decide),
   (C9_nonzero_exit_is_fatal runMutateBoom "git" "feature" (some "/repo") (some "start")
      (some "foo") "" "").2.2.2 (by decide) (by decide) (by decide) (by decide)⟩

/-- Claim C10: the `remote` parameter never appears in any built command —
two `_get_cmd` inputs that differ only in `remote` produce identical
invocation strings, for every command and action including `pull`. -/
theorem C10_remote_never_in_command (git command action name base r1 r2 : String) :
    get_cmd git command action name base r1 = get_cmd git command action name base r2 := by
  rw [get_cmd_eq, get_cmd_eq]

end Gitflow
